import Mathlib

-- Shallow embedding of the Audience-Multiplayer background service worker
-- (src/extension/background): the phase state machine (state.js), the
-- submission/vote ledger (voting.js), the pausable timers (pause.js,
-- index.js), the chat-event dispatch (index.js) and the recursive
-- batch-merge algorithm (openrouter.js).
--
-- JavaScript values are modelled as follows: timestamps and durations in
-- milliseconds are `Int` (Date.now arithmetic may go negative before the
-- `Math.max(0, _)` clamps); a JS `Set` of usernames is a duplicate-free
-- `List String` in insertion order (`setAdd` below is `Set.add`); nullable
-- numbers are `Option Int`, where JS truthiness (`if (x)`) holds exactly
-- for present non-zero values (`intTruthy`); a `setTimeout` handle is
-- recorded as `some delay` (the scheduled delay in ms of the pending
-- callback), `clearTimeout` turns it back into `none`.

namespace AudienceMultiplayer

-- constants.js
def MAX_SUBMISSION_LENGTH : Nat := 200

def MIN_VOTE_DURATION_SECONDS : Int := 5

def MIN_AUTO_REPEAT_SECONDS : Int := 20

def DEFAULT_MODEL : String := "deepseek/deepseek-v3.2"

def DEFAULT_VOTE_DURATION_SECONDS : Int := 40

def DEFAULT_MAX_TOKENS : Nat := 150

/-- The phase of the session state machine (state.js): 'idle' | 'vote' | 'combine'. -/
inductive Phase where
  | idle
  | vote
  | combine
deriving DecidableEq, Repr

/-- One ledger entry (types.js / voting.js): `{ user, text, timestamp, votes }`,
plus the optional `debugVoteCount` counter that handleVote attaches in debug
mode. `votes` is the JS `Set` of lowercased voter names, in insertion order. -/
structure Submission where
  user : String
  text : String
  timestamp : Int
  votes : List String
  debugVoteCount : Option Nat
deriving DecidableEq, Repr

instance : Inhabited Submission := ⟨⟨"", "", 0, [], none⟩⟩

/-- The configuration fields of `state.config` that the verified core reads
(state.js createInitialState). -/
structure Config where
  openRouterApiKey : String
  model : String
  voteDurationSeconds : Int
  maxTokens : Nat
  debugMode : Bool
  partyMemberName : String
  autoRepeatCooldownSeconds : Option Int
deriving DecidableEq, Repr

/-- The mutable background state (state.js createInitialState), restricted to
the fields the phase machine, ledger and timers touch. Socket handles, tokens
and the YouTube fields are orthogonal to every claim and are omitted. -/
structure St where
  phase : Phase
  submissions : List Submission
  voteTimer : Option Int
  autoRepeatTimer : Option Int
  voteEndTime : Option Int
  nextVoteStartTime : Option Int
  isPaused : Bool
  pausedVoteRemaining : Option Int
  pausedAutoRepeatRemaining : Option Int
  config : Config
deriving DecidableEq, Repr

/-- JS truthiness of a nullable number: `null`/`undefined` and `0` are falsy. -/
def intTruthy : Option Int → Bool
  | none => false
  | some n => n != 0

/-- Reads a nullable number where the source has already checked truthiness. -/
def intVal (o : Option Int) : Int := o.getD 0

/-- JS `String.prototype.toLowerCase`, defined structurally over the string's
characters so that concrete states evaluate by computation. -/
def jsToLower (s : String) : String := String.mk (s.data.map Char.toLower)

/-- state.js createInitialState (the modelled fields). -/
def createInitialState : St :=
  { phase := Phase.idle
    submissions := []
    voteTimer := none
    autoRepeatTimer := none
    voteEndTime := none
    nextVoteStartTime := none
    isPaused := false
    pausedVoteRemaining := none
    pausedAutoRepeatRemaining := none
    config :=
      { openRouterApiKey := ""
        model := DEFAULT_MODEL
        voteDurationSeconds := DEFAULT_VOTE_DURATION_SECONDS
        maxTokens := DEFAULT_MAX_TOKENS
        debugMode := false
        partyMemberName := ""
        autoRepeatCooldownSeconds := none } }

/-- state.js transitionToVote: only valid from idle; clears the ledger.
Returns the JS boolean paired with the mutated state. -/
def transitionToVote (s : St) : Bool × St :=
  if s.phase ≠ Phase.idle then (false, s)
  else (true, { s with phase := Phase.vote, submissions := [] })

/-- state.js transitionToCombine: only valid from vote; cancels the vote timer. -/
def transitionToCombine (s : St) : Bool × St :=
  if s.phase ≠ Phase.vote then (false, s)
  else (true, { s with voteTimer := none, phase := Phase.combine })

/-- state.js transitionToIdle: valid from any phase; cancels the vote timer and
clears the vote deadline. -/
def transitionToIdle (s : St) : St :=
  { s with voteTimer := none, voteEndTime := none, phase := Phase.idle }

/-- state.js clearAutoRepeatTimer. -/
def clearAutoRepeatTimer (s : St) : St :=
  { s with autoRepeatTimer := none, nextVoteStartTime := none }

/-- voting.js setVoteTimer: schedules the end-of-vote callback after the
clamped duration. -/
def setVoteTimer (s : St) : St :=
  let duration := max s.config.voteDurationSeconds MIN_VOTE_DURATION_SECONDS
  { s with voteTimer := some (duration * 1000) }

/-- JS `Set.add` on the insertion-ordered list model. -/
def setAdd (votes : List String) (x : String) : List String :=
  if votes.contains x then votes else votes ++ [x]

/-- voting.js getVoteCount: `submission.debugVoteCount || submission.votes.size`. -/
def getVoteCount (s : Submission) : Nat :=
  match s.debugVoteCount with
  | some n => if n = 0 then s.votes.length else n
  | none => s.votes.length

/-- The ledger update of voting.js handleSubmission in normal mode when a
submission by `user` already exists: the first entry whose user matches
case-insensitively gets the new text and timestamp and an implicit self-vote. -/
def resubmit (user text : String) (now : Int) : List Submission → List Submission
  | [] => []
  | sub :: rest =>
    if jsToLower sub.user == jsToLower user then
      { sub with text := text, timestamp := now, votes := setAdd sub.votes (jsToLower user) } :: rest
    else
      sub :: resubmit user text now rest

/-- voting.js handleSubmission. `now` stands for the `Date.now()` call. -/
def handleSubmission (s : St) (user text : String) (debugMode : Bool) (now : Int) : St :=
  if text.length = 0 ∨ text.length > MAX_SUBMISSION_LENGTH then s
  else if debugMode then
    { s with submissions := s.submissions ++
        [{ user := user, text := text, timestamp := now,
           votes := [jsToLower user], debugVoteCount := none }] }
  else if (s.submissions.find? (fun x => jsToLower x.user == jsToLower user)).isSome then
    { s with submissions := resubmit user text now s.submissions }
  else
    { s with submissions := s.submissions ++
        [{ user := user, text := text, timestamp := now,
           votes := [jsToLower user], debugVoteCount := none }] }

/-- The mutation voting.js handleVote applies to the found submission: adds
the voter unless already present (normal mode); in debug mode always adds and,
on a duplicate, bumps `debugVoteCount` to
`(submission.debugVoteCount || submission.votes.size) + 1` (line 59). -/
def applyVote (sub : Submission) (voter : String) (debugMode : Bool) : Submission :=
  let alreadyVoted := sub.votes.contains (jsToLower voter)
  if debugMode || !alreadyVoted then
    let sub1 := { sub with votes := setAdd sub.votes (jsToLower voter) }
    if debugMode && alreadyVoted then
      let prior : Nat :=
        match sub1.debugVoteCount with
        | some n => if n = 0 then sub1.votes.length else n
        | none => sub1.votes.length
      { sub1 with debugVoteCount := some (prior + 1) }
    else sub1
  else sub

/-- In-place mutation of the first case-insensitive user match, as JS `find`
returns a reference into the array. -/
def voteFirst (voter target : String) (debugMode : Bool) : List Submission → List Submission
  | [] => []
  | sub :: rest =>
    if jsToLower sub.user == jsToLower target then applyVote sub voter debugMode :: rest
    else sub :: voteFirst voter target debugMode rest

/-- voting.js handleVote: no-op when no submission matches `targetUser`. -/
def handleVote (s : St) (voter targetUser : String) (debugMode : Bool) : St :=
  match s.submissions.find? (fun x => jsToLower x.user == jsToLower targetUser) with
  | none => s
  | some _ => { s with submissions := voteFirst voter targetUser debugMode s.submissions }

/-- The comparator of the tally-mode sort in voting.js combineSubmissions
(lines 100-106), as a `le` test: `tallyLE a b` holds when the comparator
returns ≤ 0 on `(a, b)`, i.e. `a` may be placed before `b`. -/
def tallyLE (a b : Submission) : Bool :=
  if getVoteCount b ≠ getVoteCount a then decide (getVoteCount b < getVoteCount a)
  else decide (b.timestamp ≤ a.timestamp)

/-- The no-API-key branch of voting.js combineSubmissions: sort by
(votes desc, timestamp desc), the first element wins, and the winner's
verbatim text is the action handed to `deps.submitToAID`. Returns that
action, or `none` when there is no submission (the early-return branch). -/
def combineSubmissionsNoKey (subs : List Submission) : Option String :=
  if subs.isEmpty then none
  else ((subs.mergeSort tallyLE).head?).map (fun w => w.text)

/-- index.js scheduleAutoRepeat: schedules the next auto-vote unless paused or
the cooldown is not configured (JS falsiness: `null` and `0` both disable it). -/
def scheduleAutoRepeat (s : St) (now : Int) : St :=
  if s.isPaused then s
  else if !intTruthy s.config.autoRepeatCooldownSeconds then s
  else
    let delaySeconds := max (intVal s.config.autoRepeatCooldownSeconds) MIN_AUTO_REPEAT_SECONDS
    { s with nextVoteStartTime := some (now + delaySeconds * 1000),
             autoRepeatTimer := some (delaySeconds * 1000) }

/-- pause.js pauseTimers: stores the clamped remaining time of whichever timer
is running (vote timer in vote phase, auto-repeat countdown in idle phase) and
cancels it. `now` stands for `Date.now()` at the pause instant. -/
def pauseTimers (s : St) (now : Int) : St :=
  if s.phase = Phase.vote ∧ intTruthy s.voteEndTime then
    { s with pausedVoteRemaining := some (max 0 (intVal s.voteEndTime - now)),
             voteTimer := none }
  else if s.phase = Phase.idle ∧ intTruthy s.nextVoteStartTime then
    clearAutoRepeatTimer
      { s with pausedAutoRepeatRemaining := some (max 0 (intVal s.nextVoteStartTime - now)) }
  else s

/-- pause.js resumeTimers: reschedules with the saved remaining time (JS
truthiness: a saved remaining of 0 is falsy and skips the branch), or starts a
fresh auto-repeat cycle when nothing was saved but a cooldown is configured.
`now` stands for `Date.now()` at the resume instant. -/
def resumeTimers (s : St) (now : Int) : St :=
  if s.phase = Phase.vote ∧ intTruthy s.pausedVoteRemaining then
    let r := intVal s.pausedVoteRemaining
    { s with voteEndTime := some (now + r), voteTimer := some r,
             pausedVoteRemaining := none }
  else if s.phase = Phase.idle ∧ intTruthy s.pausedAutoRepeatRemaining then
    let r := intVal s.pausedAutoRepeatRemaining
    { s with nextVoteStartTime := some (now + r), autoRepeatTimer := some r,
             pausedAutoRepeatRemaining := none }
  else if s.phase = Phase.idle ∧ intTruthy s.config.autoRepeatCooldownSeconds then
    scheduleAutoRepeat s now
  else s

/-- pause.js togglePause. -/
def togglePause (s : St) (now : Int) : St :=
  let s1 := { s with isPaused := !s.isPaused }
  if s1.isPaused then pauseTimers s1 now else resumeTimers s1 now

/-- index.js handleStartVote: clears any pending auto-repeat timer and all
pause bookkeeping, then attempts the idle→vote transition; on success records
the vote deadline and schedules the vote timer. -/
def handleStartVote (s : St) (now : Int) : St :=
  let s1 := clearAutoRepeatTimer s
  let s2 := { s1 with isPaused := false, pausedVoteRemaining := none,
                      pausedAutoRepeatRemaining := none }
  let t := transitionToVote s2
  if t.1 then
    let duration := max t.2.config.voteDurationSeconds MIN_VOTE_DURATION_SECONDS
    setVoteTimer { t.2 with voteEndTime := some (now + duration * 1000) }
  else t.2

/-- index.js handleEndVote, synchronous part: clears the saved vote remaining
and attempts vote→combine. The asynchronous continuation (combineAndSubmit →
combineSubmissions, transitionToIdle, scheduleAutoRepeat) is modelled by the
separate functions above returning to the caller. -/
def handleEndVote (s : St) : St :=
  (transitionToCombine { s with pausedVoteRemaining := none }).2

-- Chat parsing (index.js lines 84 and 92): the two regular expressions
-- /^(?:\+1\s+@(\w+)|@(\w+)\s+\+1)$/i and /^>\s*(.+)$/ over single-line chat
-- text. JS \w is [A-Za-z0-9_]; JS \s is modelled by Char.isWhitespace; JS `.`
-- matches everything except line terminators, modelled as \n and \r.

def isWordChar (c : Char) : Bool := c.isAlphanum || c = '_'

def isLineTerminator (c : Char) : Bool := c = '\n' || c = '\r'

/-- The vote regex `^(?:\+1\s+@(\w+)|@(\w+)\s+\+1)$`: returns the captured
target username. The alternation is deterministic on the first character. -/
def parseVoteTarget (text : String) : Option String :=
  match text.toList with
  | '+' :: '1' :: rest =>
    let ws := rest.takeWhile Char.isWhitespace
    let r2 := rest.dropWhile Char.isWhitespace
    if ws.isEmpty then none
    else
      match r2 with
      | '@' :: r3 =>
        let w := r3.takeWhile isWordChar
        let r4 := r3.dropWhile isWordChar
        if w.isEmpty ∨ ¬ r4.isEmpty then none else some (String.mk w)
      | _ => none
  | '@' :: rest =>
    let w := rest.takeWhile isWordChar
    let r2 := rest.dropWhile isWordChar
    let ws := r2.takeWhile Char.isWhitespace
    let r3 := r2.dropWhile Char.isWhitespace
    if w.isEmpty ∨ ws.isEmpty then none
    else
      match r3 with
      | ['+', '1'] => some (String.mk w)
      | _ => none
  | _ => none

/-- The submission regex `^>\s*(.+)$`: returns the capture group. With the
greedy `\s*`, the capture is the remainder stripped of leading whitespace
provided it spans no line terminator; when the remainder is all whitespace,
backtracking leaves the final character as the capture (which the caller then
trims to the empty string, so the submission is rejected for zero length). -/
def parseSubmissionCapture (text : String) : Option String :=
  match text.toList with
  | '>' :: rest =>
    let t := rest.dropWhile Char.isWhitespace
    if ¬ t.isEmpty then
      if t.any isLineTerminator then none else some (String.mk t)
    else if ¬ rest.isEmpty ∧ ¬ isLineTerminator (rest.getLastD ' ') then
      some (String.mk (rest.drop (rest.length - 1)))
    else none
  | _ => none

/-- index.js handleTwitchChatMessage: `!vote` / `!tally` commands for
broadcaster or moderators; during the vote phase, vote and submission
patterns; everything else (and everything outside the vote phase) ignored. -/
def handleTwitchChatMessage (s : St) (user text : String)
    (isBroadcaster isMod : Bool) (now : Int) : St :=
  let canUseCommands := isBroadcaster || isMod
  if jsToLower text == "!vote" then
    if canUseCommands then handleStartVote s now else s
  else if jsToLower text == "!tally" then
    if canUseCommands then handleEndVote s else s
  else if s.phase ≠ Phase.vote then s
  else
    match parseVoteTarget text with
    | some target => handleVote s user (jsToLower target) s.config.debugMode
    | none =>
      match parseSubmissionCapture text with
      | some capture => handleSubmission s user capture.trim s.config.debugMode now
      | none => s

/-- index.js handleYouTubeChatMessage: votes and submissions only, no
commands; everything outside the vote phase is ignored. -/
def handleYouTubeChatMessage (s : St) (user text : String) (now : Int) : St :=
  if s.phase ≠ Phase.vote then s
  else
    match parseVoteTarget text with
    | some target => handleVote s user (jsToLower target) s.config.debugMode
    | none =>
      match parseSubmissionCapture text with
      | some capture => handleSubmission s user capture.trim s.config.debugMode now
      | none => s

/-- A chat-driven event reaching the background worker: a parsed Twitch IRC
message (with its privilege badges) or a YouTube chat message. -/
inductive ChatEvent where
  | twitch (user text : String) (isBroadcaster isMod : Bool)
  | youtube (user text : String)
deriving DecidableEq, Repr

/-- Whether a Twitch message text is one of the two moderator commands. -/
def isCommandText (text : String) : Bool :=
  jsToLower text == "!vote" || jsToLower text == "!tally"

/-- The chat-event step of the background worker (index.js). -/
def stepChat (s : St) (e : ChatEvent) (now : Int) : St :=
  match e with
  | ChatEvent.twitch user text isB isM => handleTwitchChatMessage s user text isB isM now
  | ChatEvent.youtube user text => handleYouTubeChatMessage s user text now

-- openrouter.js: prompt construction and the recursive batch merge. The
-- external LLM (callOpenRouter) is abstracted as an oracle
-- `llm : String → String → String` from (systemPrompt, userPrompt) to the
-- response text; `Date.now()` is the parameter `now`.

/-- openrouter.js buildSystemPrompt. -/
def buildSystemPrompt (partyMemberName : String) : String :=
  "You are helping combine multiple player suggestions into a single action for **" ++
  partyMemberName ++ "** in a collaborative interactive fiction story.\n\n" ++
  "Your task is to synthesize the submitted actions into ONE coherent third-person action that:\n" ++
  "- Incorporates the best elements from each suggestion when possible\n" ++
  "- Fits naturally with the story context and tone\n" ++
  "- Maintains narrative consistency with established characters and setting\n" ++
  "- Is concise (1-2 sentences maximum)\n\n" ++
  "## Formatting Rules\n\n" ++
  "- Write ONLY the action text, no explanations or commentary\n" ++
  "- Do NOT begin with \"" ++ partyMemberName ++
  "\" or any character name - the game engine adds that automatically\n" ++
  "- Write in third person (e.g. \"leaps forward and grabs the rope\" not \"" ++
  partyMemberName ++ " leaps forward\")\n" ++
  "- Actions should flow naturally from the current story moment"

/-- One entry of `context.contextSections` (types.js / aid.js). -/
structure ContextSection where
  sectionType : String
  text : String
deriving DecidableEq, Repr

/-- The AID context object, as consumed by extractStoryContext. -/
structure AIDContext where
  contextSections : List ContextSection
deriving DecidableEq, Repr

/-- openrouter.js SKIP_SECTIONS. -/
def SKIP_SECTIONS : List String := ["instructions", "authorsNote"]

/-- openrouter.js extractStoryContext: drops skipped or empty-text sections
(JS `s.text` truthiness), joins the trimmed texts with blank lines. -/
def extractStoryContext (context : Option AIDContext) : String :=
  match context with
  | none => ""
  | some c =>
    let filtered := c.contextSections.filter
      (fun sec => !SKIP_SECTIONS.contains sec.sectionType && sec.text ≠ "")
    (String.intercalate "\n\n" (filtered.map (fun sec => sec.text.trim))).trim

/-- openrouter.js buildCombinePrompt. `lastAIOutput` is appended as trailing
context only when truthy (non-null and non-empty). -/
def buildCombinePrompt (storyContext : String) (lastAIOutput : Option String)
    (submissions : List Submission) (partyMemberName : String) : String :=
  let submissionList := String.intercalate "\n"
    (submissions.mapIdx (fun i sub =>
      toString (i + 1) ++ ". \"" ++ sub.text ++ "\" (by " ++ sub.user ++ ")"))
  let prompt := "# Character: " ++ partyMemberName ++ "\n\n"
  let fullContext := storyContext
  let fullContext :=
    match lastAIOutput with
    | some out => if out ≠ "" then fullContext ++ "\n\nMost Recent:\n" ++ out else fullContext
    | none => fullContext
  let fullContext := fullContext.trim
  let prompt :=
    if fullContext ≠ "" then
      prompt ++ "## Story Context\n\n```\n" ++ fullContext ++ "\n```\n\n"
    else prompt
  let prompt := prompt ++ "## Player Submissions\n\n" ++ submissionList ++ "\n\n"
  let prompt := prompt ++ "## Task\n\n"
  let prompt := prompt ++ "Combine these " ++ toString submissions.length ++
    " suggestions into a single action for **" ++ partyMemberName ++ "**."
  prompt ++ " Output ONLY the action text, do not prefix with the character name."

/-- openrouter.js AICallDebugInfo. -/
structure AICallDebugInfo where
  systemPrompt : String
  userPrompt : String
  response : String
  model : String
  timestamp : Int
deriving DecidableEq, Repr

/-- The outcome of recursiveMerge: the merged action, the debug trace of the
final call, and — for specification purposes — the log of every LLM call's
submission batch, in issue order. -/
structure MergeOut where
  result : String
  debugInfo : Option AICallDebugInfo
  calls : List (List Submission)
deriving DecidableEq, Repr

-- recursiveMerge's batch-size constants (openrouter.js lines 141-143).
def tokensPerSubmission : Nat := 50

def targetBatchTokens : Nat := 16000

/-- openrouter.js line 143: `Math.max(3, Math.floor(targetBatchTokens / tokensPerSubmission))`. -/
def batchSize : Nat := max 3 (targetBatchTokens / tokensPerSubmission)

/-- The batch-splitting loop of openrouter.js lines 160-163: contiguous slices
of `b` submissions. The source only calls this with `b = batchSize ≥ 3`; the
`b = 0` case is unreachable there and is given a harmless value for totality. -/
def chunkList (b : Nat) (l : List α) : List (List α) :=
  if hb : b = 0 then []
  else if hl : l.isEmpty then []
  else l.take b :: chunkList b (l.drop b)
termination_by l.length
decreasing_by
  simp only [List.length_drop]
  have hpos : 0 < l.length := by
    cases l with
    | nil => simp at hl
    | cons a t => simp
  omega

theorem chunkList_length_le {b : Nat} (hb : 0 < b) (l : List α) :
    (chunkList b l).length ≤ l.length := by
  induction l using chunkList.induct b with
  | case1 l h => omega
  | case2 l h hl => simp [chunkList, hl]
  | case3 l h hl ih =>
    rw [chunkList]
    simp only [dif_neg h, dif_neg hl, List.length_cons]
    have hlen : (l.drop b).length = l.length - b := List.length_drop b l
    have hpos : 0 < l.length := by
      cases l with
      | nil => simp at hl
      | cons a t => simp
    omega

theorem chunkList_length_lt {b : Nat} (hb : 2 ≤ b) (l : List α)
    (hl : b < l.length) : (chunkList b l).length < l.length := by
  rw [chunkList]
  have hb0 : ¬ b = 0 := by omega
  have hne : ¬ l.isEmpty := by
    cases l with
    | nil => simp at hl
    | cons a t => simp
  simp only [dif_neg hb0, dif_neg hne, List.length_cons]
  have := chunkList_length_le (b := b) (by omega) (l.drop b)
  have hlen : (l.drop b).length = l.length - b := List.length_drop b l
  omega

/-- openrouter.js recursiveMerge. The external LLM is the oracle `llm`; the
`calls` field of the result logs each `callOpenRouter` batch in issue order
(the split path issues its batch calls concurrently via `Promise.all`, i.e. in
array order, before the single recursive call). -/
def recursiveMerge (config : Config) (context : Option AIDContext)
    (submissions : List Submission) (lastAIOutput : Option String)
    (llm : String → String → String) (now : Int) : MergeOut :=
  if submissions.length = 1 then
    { result := (submissions.headD default).text, debugInfo := none, calls := [] }
  else
    let storyContext := extractStoryContext context
    let partyMemberName :=
      if config.partyMemberName = "" then "the party member" else config.partyMemberName
    let systemPrompt := buildSystemPrompt partyMemberName
    if submissions.length ≤ batchSize then
      let userPrompt := buildCombinePrompt storyContext lastAIOutput submissions partyMemberName
      let result := llm systemPrompt userPrompt
      { result := result
        debugInfo := some
          { systemPrompt := systemPrompt, userPrompt := userPrompt,
            response := result, model := config.model, timestamp := now }
        calls := [submissions] }
    else
      let batches := chunkList batchSize submissions
      let intermediateResults := batches.mapIdx (fun idx batch =>
        { user := "Batch" ++ toString (idx + 1)
          text := llm systemPrompt (buildCombinePrompt storyContext lastAIOutput batch partyMemberName)
          timestamp := now
          votes := []
          debugVoteCount := none : Submission })
      let merged := recursiveMerge config context intermediateResults none llm now
      { merged with calls := batches ++ merged.calls }
termination_by submissions.length
decreasing_by
  simp only [List.length_mapIdx]
  exact chunkList_length_lt (by decide) submissions (by omega)

-- Supporting lemmas about the ledger operations.

theorem setAdd_of_contains {l : List String} {x : String} (h : l.contains x = true) :
    setAdd l x = l := by
  unfold setAdd
  rw [if_pos h]

theorem contains_setAdd (l : List String) (x : String) :
    (setAdd l x).contains x = true := by
  by_cases h : x ∈ l <;> simp [setAdd, h]

theorem applyVote_user (sub : Submission) (voter : String) (d : Bool) :
    (applyVote sub voter d).user = sub.user := by
  by_cases h : jsToLower voter ∈ sub.votes <;> cases d <;> simp [applyVote, h]

theorem applyVote_normal_contains (sub : Submission) (voter : String) :
    (applyVote sub voter false).votes.contains (jsToLower voter) = true := by
  by_cases h : jsToLower voter ∈ sub.votes <;> simp [applyVote, setAdd, h]

theorem applyVote_normal_idem (sub : Submission) (voter : String) :
    applyVote (applyVote sub voter false) voter false = applyVote sub voter false := by
  have h : jsToLower voter ∈ (applyVote sub voter false).votes := by
    simpa using applyVote_normal_contains sub voter
  conv_lhs => rw [applyVote]
  simp [h]

theorem find_voteFirst (voter target : String) (d : Bool) (l : List Submission) :
    (voteFirst voter target d l).find? (fun x => jsToLower x.user == jsToLower target)
      = (l.find? (fun x => jsToLower x.user == jsToLower target)).map
          (fun sub => applyVote sub voter d) := by
  induction l with
  | nil => rfl
  | cons sub rest ih =>
    by_cases h : jsToLower sub.user == jsToLower target
    · simp [voteFirst, h, List.find?_cons, applyVote_user]
    · simp [voteFirst, h, List.find?_cons, ih]

theorem voteFirst_normal_idem (voter target : String) (l : List Submission) :
    voteFirst voter target false (voteFirst voter target false l)
      = voteFirst voter target false l := by
  induction l with
  | nil => rfl
  | cons sub rest ih =>
    by_cases h : jsToLower sub.user == jsToLower target
    · simp [voteFirst, h, applyVote_user, applyVote_normal_idem]
    · simp [voteFirst, h, ih]

theorem applyVote_debug_dup (sub : Submission) (voter : String)
    (h : sub.votes.contains (jsToLower voter) = true) :
    applyVote sub voter true = { sub with debugVoteCount := some (getVoteCount sub + 1) } := by
  have h' : jsToLower voter ∈ sub.votes := by simpa using h
  simp [applyVote, setAdd_of_contains h, h', getVoteCount]

-- Claim theorems.

/-- C3: `transitionToVote` fails (false, state untouched) unless the phase is
idle, and on success clears the ledger and enters vote; `transitionToCombine`
fails unless the phase is vote, and on success cancels the vote timer and
enters combine; `transitionToIdle` always succeeds, cancelling the vote timer
and clearing the vote-deadline bookkeeping. -/
theorem phase_transitions_spec (s : St) :
    (s.phase ≠ Phase.idle → transitionToVote s = (false, s))
    ∧ (s.phase = Phase.idle →
        transitionToVote s = (true, { s with phase := Phase.vote, submissions := [] }))
    ∧ (s.phase ≠ Phase.vote → transitionToCombine s = (false, s))
    ∧ (s.phase = Phase.vote →
        transitionToCombine s = (true, { s with voteTimer := none, phase := Phase.combine }))
    ∧ (transitionToIdle s).phase = Phase.idle
    ∧ (transitionToIdle s).voteTimer = none
    ∧ (transitionToIdle s).voteEndTime = none := by
  refine ⟨?_, ?_, ?_, ?_, rfl, rfl, rfl⟩ <;>
    intro h <;> simp [transitionToVote, transitionToCombine, h]

/-- Witness for C3 at concrete states: a failed toVote from vote leaves the
state untouched, and a failed toCombine from idle leaves the state untouched. -/
theorem phase_transitions_spec_witness :
    transitionToVote { createInitialState with phase := Phase.vote }
      = (false, { createInitialState with phase := Phase.vote })
    ∧ transitionToCombine createInitialState = (false, createInitialState) :=
  ⟨(phase_transitions_spec { createInitialState with phase := Phase.vote }).1 (by decide),
   (phase_transitions_spec createInitialState).2.2.1 (by decide)⟩

/-- C10: `handleStartVote` always — before attempting the phase transition and
regardless of whether it succeeds — cancels any pending auto-repeat timer,
resets the pause flag and clears both stored paused-remaining durations. -/
theorem handleStartVote_clears_pause_state (s : St) (now : Int) :
    (handleStartVote s now).autoRepeatTimer = none
    ∧ (handleStartVote s now).nextVoteStartTime = none
    ∧ (handleStartVote s now).isPaused = false
    ∧ (handleStartVote s now).pausedVoteRemaining = none
    ∧ (handleStartVote s now).pausedAutoRepeatRemaining = none := by
  by_cases h : s.phase = Phase.idle <;>
    simp [handleStartVote, transitionToVote, clearAutoRepeatTimer, setVoteTimer, h]

/-- C9: `handleSubmission` silently rejects empty or over-length text in both
normal and debug mode: the whole state, in particular the ledger, is unchanged. -/
theorem handleSubmission_rejects_bad_length (s : St) (user text : String)
    (debugMode : Bool) (now : Int)
    (h : text.length = 0 ∨ text.length > MAX_SUBMISSION_LENGTH) :
    handleSubmission s user text debugMode now = s := by
  unfold handleSubmission
  rw [if_pos h]

set_option maxRecDepth 4000 in
/-- Witness for C9: a 201-character submission is a no-op on the initial state. -/
theorem handleSubmission_rejects_bad_length_witness :
    ((String.mk (List.replicate 201 'a')).length = 0 ∨
      (String.mk (List.replicate 201 'a')).length > MAX_SUBMISSION_LENGTH)
    ∧ handleSubmission createInitialState "leah" (String.mk (List.replicate 201 'a')) false 0
        = createInitialState :=
  have h : (String.mk (List.replicate 201 'a')).length = 0 ∨
      (String.mk (List.replicate 201 'a')).length > MAX_SUBMISSION_LENGTH :=
    Or.inr (by decide)
  ⟨h, handleSubmission_rejects_bad_length createInitialState "leah" _ false 0 h⟩

/-- C7: in normal mode a second vote from the same voter for the same target
is a no-op — repeating `handleVote` changes nothing, so the target's voter set
and vote count are unchanged by the duplicate vote. -/
theorem handleVote_normal_idempotent (s : St) (voter targetUser : String) :
    handleVote (handleVote s voter targetUser false) voter targetUser false
      = handleVote s voter targetUser false := by
  unfold handleVote
  cases hfind : s.submissions.find? (fun x => jsToLower x.user == jsToLower targetUser) with
  | none => simp [hfind]
  | some sub =>
    simp only [hfind, find_voteFirst, Option.map_some', voteFirst_normal_idem]

/-- C6 (amended): in debug mode a duplicate vote increments the vote count by
exactly one: when `handleVote` finds the voter already present in the target's
voter set, the target's voter set is unchanged and its vote count afterwards
equals the previous vote count plus 1 (i.e. `(debugVoteCount || votes.size) + 1`,
which differs from `max(previous count, voterSetSize) + 1` once distinct voters
have enlarged the set past the counter). -/
theorem handleVote_debug_duplicate (s : St) (voter targetUser : String) (sub : Submission)
    (hfind : s.submissions.find? (fun x => jsToLower x.user == jsToLower targetUser) = some sub)
    (hvoted : sub.votes.contains (jsToLower voter) = true) :
    ∃ sub2,
      (handleVote s voter targetUser true).submissions.find?
          (fun x => jsToLower x.user == jsToLower targetUser) = some sub2
      ∧ sub2.votes = sub.votes
      ∧ getVoteCount sub2 = getVoteCount sub + 1 := by
  refine ⟨applyVote sub voter true, ?_, ?_, ?_⟩
  · unfold handleVote
    rw [hfind]
    simp only [find_voteFirst, hfind, Option.map_some']
  · rw [applyVote_debug_dup sub voter hvoted]
  · rw [applyVote_debug_dup sub voter hvoted]
    simp [getVoteCount]

/-- Witness for C6 at a concrete ledger: a duplicate debug vote by "Ann" on her
own submission bumps the count from 1 to 2 and keeps the voter set intact. -/
theorem handleVote_debug_duplicate_witness :
    (let subA : Submission :=
      { user := "Ann", text := "go", timestamp := 5, votes := ["ann"], debugVoteCount := none }
    let s : St := { createInitialState with submissions := [subA] }
    ∃ sub2,
      (handleVote s "Ann" "Ann" true).submissions.find?
          (fun x => jsToLower x.user == jsToLower "Ann") = some sub2
      ∧ sub2.votes = subA.votes
      ∧ getVoteCount sub2 = getVoteCount subA + 1) :=
  handleVote_debug_duplicate
    { createInitialState with submissions :=
        [{ user := "Ann", text := "go", timestamp := 5, votes := ["ann"], debugVoteCount := none }] }
    "Ann" "Ann"
    { user := "Ann", text := "go", timestamp := 5, votes := ["ann"], debugVoteCount := none }
    (by decide) (by decide)

/-- Counterexample to C6 as stated: in debug mode, submit by "A" (voter set
{a}), duplicate vote by A (counter becomes 2), then distinct votes by B and C
(set grows to {a, b, c} while the counter stays 2); the next duplicate vote by
A yields a count of 3 — `(debugVoteCount || size) + 1` — while the claimed
formula `max(previous count, voterSetSize) + 1 = max(2, 3) + 1` demands 4. -/
theorem handleVote_debug_duplicate_counterexample :
    (let sub0 : Submission :=
      { user := "A", text := "go", timestamp := 0, votes := ["a"], debugVoteCount := none }
    let s0 : St := { createInitialState with submissions := [sub0] }
    let s3 := handleVote (handleVote (handleVote s0 "A" "A" true) "B" "A" true) "C" "A" true
    let sub3 := s3.submissions.headD default
    let sub4 := (handleVote s3 "A" "A" true).submissions.headD default
    sub3.votes.contains (jsToLower "A") = true
      ∧ getVoteCount sub3 = 2 ∧ sub3.votes.length = 3
      ∧ getVoteCount sub4 = 3
      ∧ getVoteCount sub4 ≠ max (getVoteCount sub3) sub3.votes.length + 1) := by
  decide

/-- C4 (amended): pausing a running timer (the vote timer during the vote
phase, the auto-repeat countdown during idle) captures
`r = max(0, deadline − pause instant)`, and — provided `r > 0` — resuming at
any later instant `t` schedules a fresh expiry callback for exactly `r` after
`t` and sets the new deadline to `t + r`, independent of the pause length.
(When `r = 0` the saved remaining time is falsy in JS and the resume branch
does not fire; see the counterexample.) -/
theorem pause_resume_preserves_remaining (s : St) (tp tr : Int) :
    (s.phase = Phase.vote → intTruthy s.voteEndTime = true →
      0 < intVal s.voteEndTime - tp →
      (resumeTimers (pauseTimers s tp) tr).voteTimer = some (intVal s.voteEndTime - tp)
      ∧ (resumeTimers (pauseTimers s tp) tr).voteEndTime
          = some (tr + (intVal s.voteEndTime - tp)))
    ∧ (s.phase = Phase.idle → intTruthy s.nextVoteStartTime = true →
      0 < intVal s.nextVoteStartTime - tp →
      (resumeTimers (pauseTimers s tp) tr).autoRepeatTimer
          = some (intVal s.nextVoteStartTime - tp)
      ∧ (resumeTimers (pauseTimers s tp) tr).nextVoteStartTime
          = some (tr + (intVal s.nextVoteStartTime - tp))) := by
  constructor
  · intro h1 h2 h3
    cases hve : s.voteEndTime with
    | none => rw [hve] at h2; simp [intTruthy] at h2
    | some d =>
      rw [hve] at h3
      simp only [intVal, Option.getD] at h3 ⊢
      have hd : d ≠ 0 := by rw [hve] at h2; simpa [intTruthy] using h2
      have hd0 : d - tp ≠ 0 := by omega
      have hmax : max 0 (d - tp) = d - tp := by omega
      simp [pauseTimers, resumeTimers, h1, hve, intTruthy, intVal, hmax, hd, hd0]
  · intro h1 h2 h3
    cases hnv : s.nextVoteStartTime with
    | none => rw [hnv] at h2; simp [intTruthy] at h2
    | some d =>
      rw [hnv] at h3
      simp only [intVal, Option.getD] at h3 ⊢
      have hd : d ≠ 0 := by rw [hnv] at h2; simpa [intTruthy] using h2
      have hd0 : d - tp ≠ 0 := by omega
      have hmax : max 0 (d - tp) = d - tp := by omega
      simp [pauseTimers, resumeTimers, clearAutoRepeatTimer, h1, hnv, intTruthy, intVal,
        hmax, hd, hd0]

/-- Witness for C4: a vote timer with deadline 100 paused at instant 90
(10 remaining) and resumed at instant 1000000 fires 10 after the resume
instant, with new deadline 1000010. -/
theorem pause_resume_preserves_remaining_witness :
    (let s : St :=
      { createInitialState with phase := Phase.vote, voteEndTime := some 100, voteTimer := some 40000 }
    (resumeTimers (pauseTimers s 90) 1000000).voteTimer = some (intVal s.voteEndTime - 90)
      ∧ (resumeTimers (pauseTimers s 90) 1000000).voteEndTime
          = some (1000000 + (intVal s.voteEndTime - 90))) :=
  (pause_resume_preserves_remaining
    { createInitialState with phase := Phase.vote, voteEndTime := some 100, voteTimer := some 40000 }
    90 1000000).1
    (by decide) (by decide) (by decide)

/-- Counterexample to C4 as stated: a vote timer whose deadline (100) has
already passed at the pause instant (150) is paused with remaining
`r = max(0, 100 − 150) = 0`; the claim demands that resuming at instant 200
schedule a callback for 0 ms and set the deadline to 200, but the saved 0 is
falsy in JS, so the resume leaves no timer and the stale deadline 100. -/
theorem pause_resume_counterexample :
    (let s : St :=
      { createInitialState with phase := Phase.vote, voteEndTime := some 100, voteTimer := some 40000 }
    let s2 := resumeTimers (pauseTimers s 150) 200
    max 0 ((100 : Int) - 150) = 0
      ∧ (pauseTimers s 150).pausedVoteRemaining = some 0
      ∧ s2.voteTimer = none ∧ s2.voteEndTime = some 100
      ∧ ¬ (s2.voteTimer = some 0 ∧ s2.voteEndTime = some 200)) := by
  decide

-- Supporting lemmas about the tally-mode comparator.

theorem tallyLE_iff (a b : Submission) : tallyLE a b = true ↔
    (getVoteCount b < getVoteCount a ∨
      (getVoteCount b = getVoteCount a ∧ b.timestamp ≤ a.timestamp)) := by
  unfold tallyLE
  by_cases h : getVoteCount b = getVoteCount a <;> simp [h] <;> omega

theorem tallyLE_trans (a b c : Submission) (h1 : tallyLE a b) (h2 : tallyLE b c) :
    tallyLE a c = true := by
  rw [tallyLE_iff] at h1 h2 ⊢
  omega

theorem tallyLE_total (a b : Submission) : (tallyLE a b || tallyLE b a) = true := by
  rw [Bool.or_eq_true, tallyLE_iff, tallyLE_iff]
  omega

/-- C1: in tally mode (no API key), for every non-empty ledger the emitted
action is the verbatim text of a winner submission that attains the maximum
vote count and, among the submissions tied at that maximum, the latest
timestamp. -/
theorem combineSubmissionsNoKey_winner (subs : List Submission) (h : subs ≠ []) :
    ∃ w, w ∈ subs ∧ combineSubmissionsNoKey subs = some w.text
      ∧ (∀ x ∈ subs, getVoteCount x ≤ getVoteCount w)
      ∧ (∀ x ∈ subs, getVoteCount x = getVoteCount w → x.timestamp ≤ w.timestamp) := by
  cases hs : subs.mergeSort tallyLE with
  | nil =>
    exfalso
    have hlen := (List.mergeSort_perm subs tallyLE).length_eq
    rw [hs] at hlen
    exact h (List.eq_nil_of_length_eq_zero hlen.symm)
  | cons w tail =>
    have hw : w ∈ subs := by
      have : w ∈ subs.mergeSort tallyLE := by rw [hs]; exact List.mem_cons_self w tail
      exact List.mem_mergeSort.mp this
    have hpair : (subs.mergeSort tallyLE).Pairwise (fun a b => tallyLE a b = true) :=
      List.sorted_mergeSort tallyLE_trans tallyLE_total subs
    rw [hs] at hpair
    have hle : ∀ x ∈ tail, tallyLE w x = true := (List.pairwise_cons.mp hpair).1
    have hkey : ∀ x ∈ subs, getVoteCount x ≤ getVoteCount w ∧
        (getVoteCount x = getVoteCount w → x.timestamp ≤ w.timestamp) := by
      intro x hx
      have hx' : x ∈ w :: tail := by rw [← hs]; exact List.mem_mergeSort.mpr hx
      rcases List.mem_cons.mp hx' with hxw | hxt
      · subst hxw; exact ⟨Nat.le_refl _, fun _ => Int.le_refl _⟩
      · have := (tallyLE_iff w x).mp (hle x hxt)
        omega
    refine ⟨w, hw, ?_, fun x hx => (hkey x hx).1, fun x hx => (hkey x hx).2⟩
    unfold combineSubmissionsNoKey
    rw [if_neg (by simpa [List.isEmpty_iff] using h), hs]
    rfl

/-- Witness for C1 at the spec's example ledger: counts A:2, B:2, C:1 with B
created after A (so B, the latest of the maximal pair, wins). -/
theorem combineSubmissionsNoKey_winner_witness :
    (let subA : Submission :=
      { user := "A", text := "open the door", timestamp := 10, votes := ["a", "x"], debugVoteCount := none }
    let subB : Submission :=
      { user := "B", text := "search the room", timestamp := 20, votes := ["b", "y"], debugVoteCount := none }
    let subC : Submission :=
      { user := "C", text := "flee", timestamp := 30, votes := ["c"], debugVoteCount := none }
    ∃ w, w ∈ [subA, subB, subC] ∧ combineSubmissionsNoKey [subA, subB, subC] = some w.text
      ∧ (∀ x ∈ [subA, subB, subC], getVoteCount x ≤ getVoteCount w)
      ∧ (∀ x ∈ [subA, subB, subC], getVoteCount x = getVoteCount w →
          x.timestamp ≤ w.timestamp)) :=
  combineSubmissionsNoKey_winner
    [{ user := "A", text := "open the door", timestamp := 10, votes := ["a", "x"], debugVoteCount := none },
     { user := "B", text := "search the room", timestamp := 20, votes := ["b", "y"], debugVoteCount := none },
     { user := "C", text := "flee", timestamp := 30, votes := ["c"], debugVoteCount := none }]
    (by decide)

/-- C5: chat-driven submissions and votes arriving while the phase is not
'vote' are discarded without any effect (the handlers return the state
unchanged); and over the full chat-event step relation — commands included —
the ledger is cleared exactly on a successful transition into 'vote': from any
state outside the vote phase, a chat event either leaves the ledger untouched
and the phase still outside 'vote', or enters 'vote' with the ledger cleared. -/
theorem chat_ledger_invariant :
    (∀ (s : St) (user text : String) (isB isM : Bool) (now : Int),
        isCommandText text = false → s.phase ≠ Phase.vote →
        handleTwitchChatMessage s user text isB isM now = s)
    ∧ (∀ (s : St) (user text : String) (now : Int),
        s.phase ≠ Phase.vote → handleYouTubeChatMessage s user text now = s)
    ∧ (∀ (s : St), (transitionToVote s).1 = true → (transitionToVote s).2.submissions = [])
    ∧ (∀ (s : St), (transitionToVote s).1 = false → (transitionToVote s).2 = s)
    ∧ (∀ (s : St) (e : ChatEvent) (now : Int), s.phase ≠ Phase.vote →
        ((stepChat s e now).submissions = s.submissions
            ∧ (stepChat s e now).phase ≠ Phase.vote)
        ∨ ((stepChat s e now).phase = Phase.vote ∧ (stepChat s e now).submissions = [])) := by
  have htw : ∀ (s : St) (user text : String) (isB isM : Bool) (now : Int),
      isCommandText text = false → s.phase ≠ Phase.vote →
      handleTwitchChatMessage s user text isB isM now = s := by
    intro s user text isB isM now hc hp
    unfold isCommandText at hc
    have h1 : (jsToLower text == "!vote") = false := by
      cases hv : (jsToLower text == "!vote") <;> simp [hv] at hc ⊢
    have h2 : (jsToLower text == "!tally") = false := by
      cases ht : (jsToLower text == "!tally") <;> simp [ht] at hc ⊢
    simp [handleTwitchChatMessage, h1, h2, hp]
  have hyt : ∀ (s : St) (user text : String) (now : Int),
      s.phase ≠ Phase.vote → handleYouTubeChatMessage s user text now = s := by
    intro s user text now hp
    simp [handleYouTubeChatMessage, hp]
  have hvote1 : ∀ (s : St), (transitionToVote s).1 = true →
      (transitionToVote s).2.submissions = [] := by
    intro s h
    by_cases hid : s.phase = Phase.idle
    · simp [transitionToVote, hid]
    · simp [transitionToVote, hid] at h
  have hvote2 : ∀ (s : St), (transitionToVote s).1 = false → (transitionToVote s).2 = s := by
    intro s h
    by_cases hid : s.phase = Phase.idle
    · simp [transitionToVote, hid] at h
    · simp [transitionToVote, hid]
  refine ⟨htw, hyt, hvote1, hvote2, ?_⟩
  intro s e now hp
  cases e with
  | youtube user text =>
    left
    rw [stepChat, hyt s user text now hp]
    exact ⟨rfl, hp⟩
  | twitch user text isB isM =>
    rw [stepChat]
    by_cases hv : (jsToLower text == "!vote") = true
    · rw [handleTwitchChatMessage]
      simp only [hv, if_true]
      cases hcan : (isB || isM) with
      | false =>
        refine Or.inl ⟨?_, ?_⟩ <;> simp [hp]
      | true =>
        simp only [if_true]
        by_cases hid : s.phase = Phase.idle
        · right
          constructor <;>
            simp [handleStartVote, transitionToVote, clearAutoRepeatTimer, setVoteTimer, hid]
        · left
          constructor <;>
            simp [handleStartVote, transitionToVote, clearAutoRepeatTimer, setVoteTimer, hid, hp]
    · by_cases ht : (jsToLower text == "!tally") = true
      · rw [handleTwitchChatMessage]
        simp only [hv, ht, Bool.false_eq_true, if_false, if_true]
        cases hcan : (isB || isM) with
        | false => exact Or.inl ⟨rfl, hp⟩
        | true =>
          simp only [if_true]
          left
          constructor <;> simp [handleEndVote, transitionToCombine, hp]
      · left
        rw [htw s user text isB isM now (by simp [isCommandText, hv, ht]) hp]
        exact ⟨rfl, hp⟩

/-- Witness for C5: a submission-shaped Twitch message while idle leaves the
initial state untouched. -/
theorem chat_ledger_invariant_witness :
    handleTwitchChatMessage createInitialState "bob" "> open the door" false false 0
      = createInitialState :=
  chat_ledger_invariant.1 createInitialState "bob" "> open the door" false false 0
    (by decide) (by decide)

-- Supporting lemmas about the batch-splitting loop and recursiveMerge.

theorem chunkList_nil {b : Nat} : chunkList b ([] : List α) = [] := by
  rw [chunkList]
  simp

theorem chunkList_eq_cons {b : Nat} (hb : b ≠ 0) {l : List α} (hl : l ≠ []) :
    chunkList b l = l.take b :: chunkList b (l.drop b) := by
  have hl' : ¬ l.isEmpty = true := by simpa [List.isEmpty_iff] using hl
  rw [chunkList, dif_neg hb, dif_neg hl']

theorem chunkList_flatten {b : Nat} (hb : 0 < b) (l : List α) :
    (chunkList b l).flatten = l := by
  induction l using chunkList.induct b with
  | case1 l h => omega
  | case2 l h hl =>
    have hnil : l = [] := by simpa [List.isEmpty_iff] using hl
    subst hnil
    simp [chunkList_nil]
  | case3 l h hl ih =>
    have hl' : l ≠ [] := by simpa [List.isEmpty_iff] using hl
    rw [chunkList_eq_cons h hl', List.flatten_cons, ih, List.take_append_drop]

theorem chunkList_batch_size {b : Nat} (hb : 0 < b) (l : List α) :
    ∀ c ∈ chunkList b l, 0 < c.length ∧ c.length ≤ b := by
  induction l using chunkList.induct b with
  | case1 l h => omega
  | case2 l h hl =>
    have hnil : l = [] := by simpa [List.isEmpty_iff] using hl
    subst hnil
    simp [chunkList_nil]
  | case3 l h hl ih =>
    have hl' : l ≠ [] := by simpa [List.isEmpty_iff] using hl
    rw [chunkList_eq_cons h hl']
    intro c hc
    rcases List.mem_cons.mp hc with hc1 | hc2
    · subst hc1
      have hpos : 0 < l.length := List.length_pos.mpr hl'
      rw [List.length_take]
      omega
    · exact ih c hc2

theorem chunkList_full_batches {b : Nat} (hb : 0 < b) (l : List α) :
    ∀ i, i + 1 < (chunkList b l).length → ((chunkList b l).getD i []).length = b := by
  induction l using chunkList.induct b with
  | case1 l h => omega
  | case2 l h hl =>
    have hnil : l = [] := by simpa [List.isEmpty_iff] using hl
    subst hnil
    intro i hi
    simp [chunkList_nil] at hi
  | case3 l h hl ih =>
    have hl' : l ≠ [] := by simpa [List.isEmpty_iff] using hl
    rw [chunkList_eq_cons h hl']
    intro i hi
    cases i with
    | zero =>
      have hnz : chunkList b (l.drop b) ≠ [] := by
        intro hcontra
        rw [hcontra] at hi
        simp at hi
      have hdrop : l.drop b ≠ [] := by
        intro hc
        rw [hc, chunkList_nil] at hnz
        exact hnz rfl
      have hlen : 0 < (l.drop b).length := List.length_pos.mpr hdrop
      rw [List.length_drop] at hlen
      simp only [List.getD_cons_zero, List.length_take]
      omega
    | succ j =>
      simp only [List.length_cons, Nat.add_lt_add_iff_right] at hi
      simpa [List.getD_cons_succ] using ih j hi

/-- The split branch of recursiveMerge, as an equation: above the batch size,
the merge issues one call per contiguous batch (logged in order), wraps the
batch results as `Batch<k>` intermediates with a fresh timestamp and an empty
voter set, and recurses on them with no lastAIOutput. -/
theorem recursiveMerge_calls_split (config : Config) (context : Option AIDContext)
    (subs : List Submission) (lastAIOutput : Option String)
    (llm : String → String → String) (now : Int)
    (h : batchSize < subs.length) :
    (recursiveMerge config context subs lastAIOutput llm now).calls
      = chunkList batchSize subs
        ++ (recursiveMerge config context
              ((chunkList batchSize subs).mapIdx (fun idx batch =>
                { user := "Batch" ++ toString (idx + 1)
                  text := llm
                    (buildSystemPrompt
                      (if config.partyMemberName = "" then "the party member"
                       else config.partyMemberName))
                    (buildCombinePrompt (extractStoryContext context) lastAIOutput batch
                      (if config.partyMemberName = "" then "the party member"
                       else config.partyMemberName))
                  timestamp := now
                  votes := []
                  debugVoteCount := none : Submission }))
              none llm now).calls := by
  have hb : 3 ≤ batchSize := by decide
  have h1 : ¬ subs.length = 1 := by omega
  have h2 : ¬ subs.length ≤ batchSize := by omega
  rw [recursiveMerge]
  simp only [if_neg h1, if_neg h2]

/-- The single-batch branch of recursiveMerge, as an equation: with more than
one submission and at most `batchSize` of them, exactly one LLM call is made,
on the full submission list. -/
theorem recursiveMerge_single_call (config : Config) (context : Option AIDContext)
    (subs : List Submission) (lastAIOutput : Option String)
    (llm : String → String → String) (now : Int)
    (h1 : subs.length ≠ 1) (h2 : subs.length ≤ batchSize) :
    (recursiveMerge config context subs lastAIOutput llm now).calls = [subs] := by
  rw [recursiveMerge]
  simp only [if_neg h1, if_pos h2]

/-- C8: the recursion of recursiveMerge reaches a base case in finitely many
rounds — `batchSize ≥ 3`, and whenever the list is longer than the batch size
(so more than one batch is formed), the number of batches is strictly smaller
than the number of submissions, for any batch size of at least 3. (This is the
measure by which `recursiveMerge` above is accepted as total.) -/
theorem recursiveMerge_strictly_decreases :
    3 ≤ batchSize
    ∧ (∀ (b : Nat) (l : List Submission), 3 ≤ b → b < l.length →
        (chunkList b l).length < l.length) :=
  ⟨by decide, fun b l hb hl => chunkList_length_lt (by omega) l hl⟩

/-- Witness for C8: four submissions with batch size 3 yield 2 batches, and
2 < 4. -/
theorem recursiveMerge_strictly_decreases_witness :
    (chunkList 3 (List.replicate 4 (default : Submission))).length
      < (List.replicate 4 (default : Submission)).length :=
  recursiveMerge_strictly_decreases.2 3 (List.replicate 4 default) (by decide) (by decide)

theorem replicate_ne_nil_of_pos {n : Nat} (h : 0 < n) (a : α) :
    List.replicate n a ≠ [] := by
  apply List.ne_nil_of_length_pos
  rw [List.length_replicate]
  exact h

theorem chunkList_replicate_700 :
    chunkList batchSize (List.replicate 700 (default : Submission))
      = [List.replicate 320 default, List.replicate 320 default, List.replicate 60 default] := by
  have hb : batchSize = 320 := by decide
  rw [hb]
  rw [chunkList_eq_cons (by decide) (replicate_ne_nil_of_pos (by decide) _),
    List.take_replicate, List.drop_replicate]
  norm_num
  rw [chunkList_eq_cons (by decide) (replicate_ne_nil_of_pos (by decide) _),
    List.take_replicate, List.drop_replicate]
  norm_num
  rw [chunkList_eq_cons (by decide) (replicate_ne_nil_of_pos (by decide) _),
    List.take_replicate, List.drop_replicate]
  norm_num
  exact chunkList_nil

/-- C2 (amended): the batch size is `max(3, floor(16000/50)) = 320`; for every
submission list longer than 320, recursiveMerge partitions it into contiguous
batches of 320 (the last batch possibly smaller; 700 submissions give batches
of 320/320/60), issues one LLM call per batch (in batch order), wraps each
batch result as a synthetic intermediate submission labeled `Batch<k>` with a
fresh timestamp and an EMPTY voter set (the source constructs `new Set()`, not
a singleton), and recurses on the intermediate list with no lastKnownAction;
a list of more than 1 and at most 320 submissions yields exactly one LLM call. -/
theorem recursiveMerge_batching (config : Config) (context : Option AIDContext)
    (subs : List Submission) (lastAIOutput : Option String)
    (llm : String → String → String) (now : Int)
    (h : batchSize < subs.length) :
    batchSize = 320
    ∧ (chunkList batchSize subs).flatten = subs
    ∧ (∀ c ∈ chunkList batchSize subs, 0 < c.length ∧ c.length ≤ batchSize)
    ∧ (∀ i, i + 1 < (chunkList batchSize subs).length →
        ((chunkList batchSize subs).getD i []).length = batchSize)
    ∧ (recursiveMerge config context subs lastAIOutput llm now).calls
        = chunkList batchSize subs
          ++ (recursiveMerge config context
                ((chunkList batchSize subs).mapIdx (fun idx batch =>
                  { user := "Batch" ++ toString (idx + 1)
                    text := llm
                      (buildSystemPrompt
                        (if config.partyMemberName = "" then "the party member"
                         else config.partyMemberName))
                      (buildCombinePrompt (extractStoryContext context) lastAIOutput batch
                        (if config.partyMemberName = "" then "the party member"
                         else config.partyMemberName))
                    timestamp := now
                    votes := []
                    debugVoteCount := none : Submission }))
                none llm now).calls
    ∧ (∀ (subs2 : List Submission), 1 < subs2.length → subs2.length ≤ batchSize →
        (recursiveMerge config context subs2 lastAIOutput llm now).calls = [subs2])
    ∧ (chunkList batchSize (List.replicate 700 (default : Submission))).map List.length
        = [320, 320, 60] := by
  have hb0 : 0 < batchSize := by decide
  refine ⟨by decide, chunkList_flatten hb0 subs, chunkList_batch_size hb0 subs,
    chunkList_full_batches hb0 subs,
    recursiveMerge_calls_split config context subs lastAIOutput llm now h,
    fun subs2 h1 h2 =>
      recursiveMerge_single_call config context subs2 lastAIOutput llm now (by omega) h2,
    ?_⟩
  rw [chunkList_replicate_700]
  simp only [List.map_cons, List.map_nil, List.length_replicate]

/-- Witness for C2: the amended theorem applied to 321 default submissions
(one more than the batch size of 320). -/
theorem recursiveMerge_batching_witness :
    (let subs := List.replicate 321 (default : Submission)
    batchSize = 320
    ∧ (chunkList batchSize subs).flatten = subs
    ∧ (∀ c ∈ chunkList batchSize subs, 0 < c.length ∧ c.length ≤ batchSize)
    ∧ (∀ i, i + 1 < (chunkList batchSize subs).length →
        ((chunkList batchSize subs).getD i []).length = batchSize)
    ∧ (recursiveMerge createInitialState.config none subs none (fun _ _ => "x") 7).calls
        = chunkList batchSize subs
          ++ (recursiveMerge createInitialState.config none
                ((chunkList batchSize subs).mapIdx (fun idx batch =>
                  { user := "Batch" ++ toString (idx + 1)
                    text := (fun _ _ => "x" : String → String → String)
                      (buildSystemPrompt
                        (if createInitialState.config.partyMemberName = ""
                         then "the party member"
                         else createInitialState.config.partyMemberName))
                      (buildCombinePrompt (extractStoryContext none) none batch
                        (if createInitialState.config.partyMemberName = ""
                         then "the party member"
                         else createInitialState.config.partyMemberName))
                    timestamp := 7
                    votes := []
                    debugVoteCount := none : Submission }))
                none (fun _ _ => "x") 7).calls
    ∧ (∀ (subs2 : List Submission), 1 < subs2.length → subs2.length ≤ batchSize →
        (recursiveMerge createInitialState.config none subs2 none (fun _ _ => "x") 7).calls
          = [subs2])
    ∧ (chunkList batchSize (List.replicate 700 (default : Submission))).map List.length
        = [320, 320, 60]) :=
  recursiveMerge_batching createInitialState.config none
    (List.replicate 321 default) none (fun _ _ => "x") 7
    (by rw [List.length_replicate]; decide)

/-- Counterexample to C2 as stated: the synthetic intermediate submissions
carry an empty voter set (the source constructs `votes: new Set()`), not a
singleton one. With 321 identical submissions the merge logs two batch calls
and then the single recursive call on the two intermediates; the first
intermediate is labeled "Batch1" and carries the fresh timestamp, but its
voter set is empty — its size is 0, never 1. -/
theorem recursiveMerge_intermediate_counterexample :
    (recursiveMerge createInitialState.config none
        (List.replicate 321 (default : Submission)) none (fun _ _ => "x") 7).calls.length = 3
    ∧ (((recursiveMerge createInitialState.config none
        (List.replicate 321 (default : Submission)) none (fun _ _ => "x") 7).calls.getD 2
          []).headD default).user = "Batch1"
    ∧ (((recursiveMerge createInitialState.config none
        (List.replicate 321 (default : Submission)) none (fun _ _ => "x") 7).calls.getD 2
          []).headD default).timestamp = 7
    ∧ (((recursiveMerge createInitialState.config none
        (List.replicate 321 (default : Submission)) none (fun _ _ => "x") 7).calls.getD 2
          []).headD default).votes = []
    ∧ (((recursiveMerge createInitialState.config none
        (List.replicate 321 (default : Submission)) none (fun _ _ => "x") 7).calls.getD 2
          []).headD default).votes.length ≠ 1 := by
  have hchunk : chunkList batchSize (List.replicate 321 (default : Submission))
      = [List.replicate 320 default, [default]] := by
    have hb : batchSize = 320 := by decide
    rw [hb]
    rw [chunkList_eq_cons (by decide) (replicate_ne_nil_of_pos (by decide) _),
      List.take_replicate, List.drop_replicate]
    norm_num
    rw [chunkList_eq_cons (by decide) (by simp)]
    norm_num
    exact chunkList_nil
  have hsplit := recursiveMerge_calls_split createInitialState.config none
    (List.replicate 321 (default : Submission)) none (fun _ _ => "x") 7
    (by rw [List.length_replicate]; decide)
  rw [hchunk] at hsplit
  simp only [List.mapIdx_cons, List.mapIdx_nil] at hsplit
  have hsingle := recursiveMerge_single_call createInitialState.config none
    [{ user := "Batch" ++ toString (0 + 1), text := "x", timestamp := 7,
       votes := [], debugVoteCount := none },
     { user := "Batch" ++ toString (0 + 1 + 1), text := "x", timestamp := 7,
       votes := [], debugVoteCount := none }]
    none (fun _ _ => "x") 7 (by decide) (by decide)
  rw [hsplit, hsingle]
  refine ⟨?_, ?_, ?_, ?_, ?_⟩ <;> decide

end AudienceMultiplayer
